import Mathlib

/-!
Verification development for the prototype1 screen recorder
(src/capture.rs, src/diff.rs, src/encode.rs, src/activity.rs).

The Rust source is embedded shallowly:
machine floats become real or rational numbers, wall-clock instants become
rationals, fallible operations return Except or Option values, and the
stateful pieces (the activity monitor, the per-monitor recording loop)
become explicit state-passing functions. External collaborators that do
not live in this repository (the image_compare crate primitives, the
foreground-window query, the ffmpeg pipe) are modelled from the written
specification of their contracts, as noted on each such definition.
-/

/-! ## Frames (diff.rs data model)

A frame is modelled as its single-channel luminance buffer plus
dimensions: the source converts every DynamicImage to luma8 before any
comparison, and the conversion is deterministic, so identical frames have
identical luminance buffers. -/

structure Image where
  width : Nat
  height : Nat
  data : List Nat
deriving DecidableEq

/-- diff.rs MaxAverageFrame: the diagnostic running-maximum record. -/
structure MaxAverageFrame where
  frame_number : Nat
  average : ℝ

/-- Modelled from the spec: the normalized luminance histogram used by the
histogram-divergence metric of the image_compare crate (code not in this
repository). Bin v holds the fraction of pixels with luminance v. -/
def lumaHistogram (img : Image) (v : Nat) : ℚ :=
  (img.data.count v : ℚ) / (img.data.length : ℚ)

/-- Modelled from the spec: the Hellinger distance on luminance histograms
computed by the image_compare crate (code not in this repository). -/
noncomputable def hellingerDistance (i1 i2 : Image) : ℝ :=
  Real.sqrt ((Finset.sum (Finset.range 256) (fun v =>
    (Real.sqrt ((lumaHistogram i1 v : ℚ) : ℝ) -
      Real.sqrt ((lumaHistogram i2 v : ℚ) : ℝ)) ^ 2)) / 2)

/-- SSIM stabilizing constant, (0.01 * 255)^2. -/
def ssim_c1 : ℚ := 65025 / 10000

/-- SSIM stabilizing constant, (0.03 * 255)^2. -/
def ssim_c2 : ℚ := 585225 / 10000

/-- Mean luminance of a buffer. -/
def meanQ (l : List Nat) : ℚ := (l.map (fun x => (x : ℚ))).sum / (l.length : ℚ)

/-- Covariance of two luminance buffers of equal length. -/
def covQ (l1 l2 : List Nat) : ℚ :=
  (((l1.zip l2).map (fun p =>
    ((p.1 : ℚ) - meanQ l1) * ((p.2 : ℚ) - meanQ l2))).sum) / (l1.length : ℚ)

/-- Variance of a luminance buffer. -/
def varQ (l : List Nat) : ℚ := covQ l l

/-- Modelled from the spec: the structural-similarity index on luminance
computed by the image_compare crate (code not in this repository), using
the standard SSIM formula on means, variances and covariance. -/
def ssimQ (i1 i2 : Image) : ℚ :=
  let mx := meanQ i1.data
  let my := meanQ i2.data
  let vx := varQ i1.data
  let vy := varQ i2.data
  let cxy := covQ i1.data i2.data
  ((2 * mx * my + ssim_c1) * (2 * cxy + ssim_c2)) /
    ((mx ^ 2 + my ^ 2 + ssim_c1) * (vx + vy + ssim_c2))

/-- diff.rs compare_images_histogram: runs the crate histogram comparison
and maps a crate error into an anyhow error string. Modelled from the
spec: the crate comparison (code not in this repository) rejects inputs
whose dimensions differ with an error value. -/
noncomputable def compare_images_histogram (image1 image2 : Image) :
    Except String ℝ :=
  if image1.width = image2.width ∧ image1.height = image2.height then
    .ok (hellingerDistance image1 image2)
  else
    .error "Failed to compare images: dimensions differ"

/-- diff.rs compare_images_ssim: runs the crate structural comparison and
unwraps it with expect, so a dimension mismatch here aborts the process
rather than returning a value; the abort is modelled as none. -/
noncomputable def compare_images_ssim (image1 image2 : Image) : Option ℝ :=
  if image1.width = image2.width ∧ image1.height = image2.height then
    some ((ssimQ image1 image2 : ℚ) : ℝ)
  else
    none

/-- diff.rs compare_with_previous_image. Returns the comparison result
together with the final values of the two mutable diagnostic parameters
(the source only reads them). The outer Option models process abort: none
would mean the expect inside compare_images_ssim fired. -/
noncomputable def compare_with_previous_image
    (previous_image : Option Image) (current_image : Image)
    (max_average : Option MaxAverageFrame) (frame_number : Nat)
    (max_avg_value : ℝ) :
    Option (Except String ℝ × Option MaxAverageFrame × ℝ) :=
  match previous_image with
  | none => some (.ok 0, max_average, max_avg_value)
  | some prev_image =>
    match compare_images_histogram prev_image current_image with
    | .error e => some (.error e, max_average, max_avg_value)
    | .ok histogram_diff =>
      match compare_images_ssim prev_image current_image with
      | none => none
      | some ssim_score =>
        some (.ok ((histogram_diff + (1 - ssim_score)) / 2),
              max_average, max_avg_value)

/-! ## Encoder sink (encode.rs) -/

/-- encode.rs MAX_RETRIES. -/
def MAX_RETRIES : Nat := 3

/-- encode.rs RETRY_DELAY, in milliseconds. -/
def RETRY_DELAY_MS : Nat := 100

instance : DecidableEq (Except String Unit) := fun a b =>
  match a, b with
  | .ok x, .ok y => isTrue (by cases x; cases y; rfl)
  | .ok _, .error _ => isFalse (fun h => Except.noConfusion h)
  | .error _, .ok _ => isFalse (fun h => Except.noConfusion h)
  | .error x, .error y =>
    if h : x = y then isTrue (by rw [h])
    else isFalse (fun hh => h (Except.error.inj hh))

/-- Observable outcome of one write_frame_with_retry call: the returned
result, how many write attempts were made, and the sleeps performed
between consecutive attempts (in milliseconds). -/
structure RetryOutcome where
  result : Except String Unit
  attempts : Nat
  delays : List Nat
deriving DecidableEq

/-- The while loop of encode.rs write_frame_with_retry. The fuel argument
is the number of loop iterations still permitted by the guard, kept equal
to MAX_RETRIES minus the retries counter by every caller, so fuel zero is
exactly the guard retries < MAX_RETRIES failing. The attempt oracle says
whether the write attempt with a given zero-based index succeeds
(modelling the ffmpeg pipe, which is outside this repository). -/
def writeRetryGo (attempt : Nat → Bool) : Nat → Nat → RetryOutcome
  | 0, _ =>
    { result := .error "Failed to write frame to ffmpeg after max retries",
      attempts := 0, delays := [] }
  | fuel + 1, retries =>
    if attempt retries then
      { result := .ok (), attempts := 1, delays := [] }
    else
      if retries + 1 ≥ MAX_RETRIES then
        { result := .error "Failed to write frame to ffmpeg: write error",
          attempts := 1, delays := [] }
      else
        let rest := writeRetryGo attempt fuel (retries + 1)
        { result := rest.result, attempts := rest.attempts + 1,
          delays := RETRY_DELAY_MS :: rest.delays }

/-- The retry loop entered with a given value of the retries counter. -/
def writeRetryFrom (attempt : Nat → Bool) (retries : Nat) : RetryOutcome :=
  writeRetryGo attempt (MAX_RETRIES - retries) retries

/-- encode.rs write_frame_with_retry: the loop starts with retries = 0. -/
def write_frame_with_retry (attempt : Nat → Bool) : RetryOutcome :=
  writeRetryFrom attempt 0

/-! ## Activity gate (activity.rs)

Wall-clock instants are rationals. The newline-delimited JSON log file is
modelled as the list of closed segments appended to it, in order; the
source treats a failed append as logged-and-ignored, which does not affect
the segment bookkeeping verified here. -/

/-- activity.rs ActivityLog: one activity segment. -/
structure ActivityLog where
  start_time : ℚ
  end_time : ℚ
  app_name : String
  window_title : String
  is_captured : Bool
deriving DecidableEq

/-- activity.rs ActivityMonitor state, with the log file modelled as the
list of segments written to it. -/
structure ActivityMonitor where
  current_log : Option ActivityLog
  blocked_apps : List String
  blocked_titles : List String
  written : List ActivityLog
deriving DecidableEq

/-- Character lists: the first list is an initial run of the second. -/
def leadsList : List Char → List Char → Bool
  | [], _ => true
  | _ :: _, [] => false
  | a :: as, b :: bs => a == b && leadsList as bs

/-- Rust str::contains on substrings: the needle occurs contiguously in
the haystack, checked at every starting position. -/
def containsL : List Char → List Char → Bool
  | needle, [] => needle.isEmpty
  | needle, hay@(_ :: t) => leadsList needle hay || containsL needle t

/-- Rust str::contains lifted to strings. -/
def containsSub (hay needle : String) : Bool :=
  containsL needle.toList hay.toList

/-- Rust str::to_lowercase, restricted to the character-wise lowering
that the blocklist comparisons exercise. -/
def toLowerStr (s : String) : String :=
  String.mk (s.toList.map Char.toLower)

/-- activity.rs ActivityMonitor::new: empty state and the hard-coded
lowercase blocklists. The log file path plays no role in the model. -/
def ActivityMonitor.new : ActivityMonitor :=
  { current_log := none
    blocked_apps := ["spotify", "slack", "line", "discord"]
    blocked_titles := ["private", "incognito", "secret"]
    written := [] }

/-- activity.rs ActivityMonitor::is_blocked. -/
def ActivityMonitor.is_blocked (self : ActivityMonitor)
    (app_name title : String) : Bool :=
  let app_lower := toLowerStr app_name
  let title_lower := toLowerStr title
  self.blocked_apps.any (fun blocked => containsSub app_lower blocked) ||
    self.blocked_titles.any (fun blocked => containsSub title_lower blocked)

/-- activity.rs ActivityMonitor::check_activity. The foreground query
(crate active_win_pos_rs, outside this repository) is passed in as an
oracle: some (app, title) on success, none on failure. Returns the
permitted flag and the updated monitor. -/
def ActivityMonitor.check_activity (self : ActivityMonitor) (now : ℚ)
    (query : Option (String × String)) : Bool × ActivityMonitor :=
  match query with
  | none => (true, self)
  | some (app_name, window_title) =>
    let isb := self.is_blocked app_name window_title
    let changed :=
      match self.current_log with
      | some current =>
        !(current.app_name == app_name) ||
          !(current.window_title == window_title) ||
          !(current.is_captured == !isb)
      | none => true
    if changed then
      let written1 :=
        match self.current_log with
        | some log => self.written ++ [{ log with end_time := now }]
        | none => self.written
      (!isb,
       { self with
           current_log := some
             { start_time := now, end_time := now,
               app_name := app_name, window_title := window_title,
               is_captured := !isb }
           written := written1 })
    else
      let current1 :=
        match self.current_log with
        | some log => some { log with end_time := now }
        | none => none
      (!isb, { self with current_log := current1 })

/-- activity.rs ActivityMonitor::flush: close and append the open
segment, if any. -/
def ActivityMonitor.flush (self : ActivityMonitor) : ActivityMonitor :=
  match self.current_log with
  | some log => { self with current_log := none, written := self.written ++ [log] }
  | none => self

/-! ## Recorder loop (capture.rs Recorder::run)

The loop is modelled over a finite list of tick environments; exhausting
the list plays the role of the stop signal eventually arriving. The state
carries everything the loop owns plus the observable effects: frames
forwarded to the encoder, segments written to the activity log, the
error and warning log lines, the sleeps performed by the scheduler, and
whether the cleanup steps ran. -/

/-- The environment one loop iteration observes: the stop signal, the
wall-clock time seen by the activity gate, the foreground query result,
the capture result (none models a capture failure), the per-attempt
outcomes of this tick's encoder write, and the instant sampled by the
sleep logic. -/
structure TickInput where
  stop : Bool
  actNow : ℚ
  query : Option (String × String)
  capture : Option Image
  writeOk : Nat → Bool
  schedNow : ℚ

/-- The state owned by one Recorder::run invocation, plus observables. -/
structure RecSt where
  frameCounter : Nat
  previousImage : Option Image
  maxAverage : Option MaxAverageFrame
  maxAvgValue : ℝ
  monitor : ActivityMonitor
  written : List Image
  errLog : List String
  nextTick : ℚ
  sleeps : List ℚ
  flushed : Bool
  stdinClosed : Bool
  waited : Bool

/-- capture.rs lines 136-160: the loop state as initialized before the
first iteration; t0 is the Instant sampled into next_tick. -/
def initState (t0 : ℚ) : RecSt :=
  { frameCounter := 0, previousImage := none, maxAverage := none,
    maxAvgValue := 0, monitor := ActivityMonitor.new, written := [],
    errLog := [], nextTick := t0, sleeps := [], flushed := false,
    stdinClosed := false, waited := false }

/-- capture.rs Result::unwrap_or(1.0) applied to the diff result. -/
def unwrapOr1 (res : Except String ℝ) : ℝ :=
  match res with
  | .ok v => v
  | .error _ => 1

/-- capture.rs line 191: previous_image.is_none() or a diff at or above
the 0.006 threshold forces a write. -/
noncomputable def shouldWrite (previous_image : Option Image)
    (current_average : ℝ) : Bool :=
  previous_image.isNone || decide (current_average ≥ (0.006 : ℝ))

/-- capture.rs lines 213-221, the sleep logic: advance the deadline by
one interval, then either sleep until it or reset it to now. Returns the
sleep performed (none when the branch does not sleep) and the new
next_tick. -/
def schedStep (next_tick now interval : ℚ) : Option ℚ × ℚ :=
  let nt := next_tick + interval
  if now < nt then (some (nt - now), nt) else (none, now)

/-- Applies the sleep logic to the loop state. -/
def applySched (interval now : ℚ) (s : RecSt) : RecSt :=
  let p := schedStep s.nextTick now interval
  { s with nextTick := p.2,
           sleeps := s.sleeps ++ (match p.1 with | some d => [d] | none => []) }

/-- capture.rs lines 179-210, the capture branch of one iteration, after
the gate has permitted capture and a frame has arrived: diff against the
previous kept frame, decide forwarding, write with retry. Sum tag inl
means the loop continues, inr means it breaks on a fatal write failure;
the outer none models process abort inside the diff. -/
noncomputable def processCapturedFrame (s : RecSt) (image : Image)
    (writeOk : Nat → Bool) : Option (RecSt ⊕ RecSt) :=
  match compare_with_previous_image s.previousImage image s.maxAverage
      s.frameCounter s.maxAvgValue with
  | none => none
  | some (res, ma, mav) =>
    let s1 := { s with maxAverage := ma, maxAvgValue := mav }
    let current_average := unwrapOr1 res
    if shouldWrite s1.previousImage current_average then
      match (write_frame_with_retry writeOk).result with
      | .error e =>
        some (.inr { s1 with errLog := s1.errLog ++ ["Failed to write frame: " ++ e] })
      | .ok _ =>
        some (.inl { s1 with
          previousImage := some image,
          frameCounter := s1.frameCounter + 1,
          written := s1.written ++ [image] })
    else
      some (.inl { s1 with frameCounter := s1.frameCounter + 1 })

/-- capture.rs lines 169-211: the body of one iteration after the stop
check: run the activity gate, then skip, fail the capture, or process the
captured frame. -/
noncomputable def tickBody (s : RecSt) (t : TickInput) :
    Option (RecSt ⊕ RecSt) :=
  let pr := s.monitor.check_activity t.actNow t.query
  let s1 := { s with monitor := pr.2 }
  if pr.1 then
    match t.capture with
    | some image => processCapturedFrame s1 image t.writeOk
    | none =>
      some (.inl { s1 with errLog := s1.errLog ++ ["Failed to capture image"] })
  else
    some (.inl s1)

/-- capture.rs lines 224-232: after the loop exits, flush the activity
log, close the ffmpeg stdin, await the subprocess. -/
def cleanup (s : RecSt) : RecSt :=
  { s with monitor := s.monitor.flush, flushed := true,
           stdinClosed := true, waited := true }

/-- capture.rs lines 162-234: the recording loop and its exit paths. On
every path out of the loop (stop signal, environment exhausted, fatal
write failure) the cleanup runs and the function returns ok; the outer
none models process abort. -/
noncomputable def runTicks (interval : ℚ) :
    List TickInput → RecSt → Option (RecSt × Except String Unit)
  | [], s => some (cleanup s, .ok ())
  | t :: rest, s =>
    if t.stop then some (cleanup s, .ok ())
    else
      match tickBody s t with
      | none => none
      | some (.inr s2) => some (cleanup s2, .ok ())
      | some (.inl s2) => runTicks interval rest (applySched interval t.schedNow s2)

/-! ## Helper lemmas -/

/-- If all three attempts fail, the retry loop reports the fatal error
after exactly MAX_RETRIES attempts and MAX_RETRIES - 1 sleeps. -/
theorem writeRetry_allFail (attempt : Nat → Bool)
    (h : ∀ j, j < MAX_RETRIES → attempt j = false) :
    write_frame_with_retry attempt =
      { result := .error "Failed to write frame to ffmpeg: write error",
        attempts := MAX_RETRIES,
        delays := List.replicate (MAX_RETRIES - 1) RETRY_DELAY_MS } := by
  have h0 := h 0 (by decide)
  have h1 := h 1 (by decide)
  have h2 := h 2 (by decide)
  simp [write_frame_with_retry, writeRetryFrom, writeRetryGo, MAX_RETRIES, h0, h1, h2]

/-- If the first success is attempt k (zero-based, within the budget),
the retry loop returns ok after exactly k + 1 attempts and k sleeps. -/
theorem writeRetry_firstSuccess (attempt : Nat → Bool) (k : Nat)
    (hk : k < MAX_RETRIES) (hfail : ∀ j, j < k → attempt j = false)
    (hsucc : attempt k = true) :
    write_frame_with_retry attempt =
      { result := .ok (), attempts := k + 1,
        delays := List.replicate k RETRY_DELAY_MS } := by
  have hk3 : k < 3 := hk
  interval_cases k
  · simp [write_frame_with_retry, writeRetryFrom, writeRetryGo, hsucc]
  · have h0 := hfail 0 (by decide)
    simp [write_frame_with_retry, writeRetryFrom, writeRetryGo, MAX_RETRIES, h0, hsucc,
      List.replicate]
  · have h0 := hfail 0 (by decide)
    have h1 := hfail 1 (by decide)
    simp [write_frame_with_retry, writeRetryFrom, writeRetryGo, MAX_RETRIES, h0, h1, hsucc,
      List.replicate]

/-- A fresh segment opened at an instant: start and end both now. -/
def newSeg (now : ℚ) (app title : String) (cap : Bool) : ActivityLog :=
  { start_time := now, end_time := now, app_name := app,
    window_title := title, is_captured := cap }

/-- A segment closed at an instant: only the end time moves. -/
def closeSeg (l : ActivityLog) (now : ℚ) : ActivityLog :=
  { l with end_time := now }

/-- The gate on a first-ever tick: opens a fresh segment, writes
nothing. -/
theorem check_activity_first (m : ActivityMonitor) (now : ℚ) (app title : String)
    (h : m.current_log = none) :
    m.check_activity now (some (app, title)) =
      (!(m.is_blocked app title),
       { m with current_log := some (newSeg now app title (!(m.is_blocked app title))) }) := by
  simp only [ActivityMonitor.check_activity, h]
  rfl

/-- The gate on a tick whose triple differs from the open segment: closes
the open segment at now and opens a fresh one. -/
theorem check_activity_changed (m : ActivityMonitor) (now : ℚ) (app title : String)
    (cur : ActivityLog) (h : m.current_log = some cur)
    (hne : cur.app_name ≠ app ∨ cur.window_title ≠ title ∨
      cur.is_captured ≠ !(m.is_blocked app title)) :
    m.check_activity now (some (app, title)) =
      (!(m.is_blocked app title),
       { m with
           current_log := some (newSeg now app title (!(m.is_blocked app title))),
           written := m.written ++ [closeSeg cur now] }) := by
  have hch : (!(cur.app_name == app) || !(cur.window_title == title) ||
      !(cur.is_captured == !(m.is_blocked app title))) = true := by
    rcases hne with h1 | h2 | h3
    · simp [h1]
    · simp [h2]
    · simp [h3]
  simp only [ActivityMonitor.check_activity, h]
  simp only [hch, if_true]
  rfl

/-- The gate on an unchanged tick: only the end time of the open segment
moves, nothing is written. -/
theorem check_activity_unchanged (m : ActivityMonitor) (now : ℚ) (app title : String)
    (cur : ActivityLog) (h : m.current_log = some cur)
    (h1 : cur.app_name = app) (h2 : cur.window_title = title)
    (h3 : cur.is_captured = !(m.is_blocked app title)) :
    m.check_activity now (some (app, title)) =
      (!(m.is_blocked app title),
       { m with current_log := some (closeSeg cur now) }) := by
  simp only [ActivityMonitor.check_activity, h, h1, h2, h3]
  simp [closeSeg]
  exact ⟨h1.symm, h2.symm, by rw [h3, Bool.not_not]⟩

/-- The blocklists survive a current_log / written update, so is_blocked
is stable across gate steps. -/
theorem is_blocked_update (m : ActivityMonitor) (cl : Option ActivityLog)
    (w : List ActivityLog) (app title : String) :
    ({ m with current_log := cl, written := w } : ActivityMonitor).is_blocked app title
      = m.is_blocked app title := rfl

/-- The Hellinger divergence of a frame against itself is zero. -/
theorem hellingerDistance_self (i : Image) : hellingerDistance i i = 0 := by
  simp [hellingerDistance]

/-- Lists zipped with themselves pair each element with itself. -/
theorem zip_self_eq (l : List Nat) : l.zip l = l.map (fun x => (x, x)) := by
  induction l with
  | nil => rfl
  | cons a t ih => simp [List.zip, ih]

/-- Variance is nonnegative. -/
theorem varQ_nonneg (l : List Nat) : 0 ≤ varQ l := by
  unfold varQ covQ
  apply div_nonneg
  · apply List.sum_nonneg
    intro x hx
    rw [zip_self_eq, List.map_map] at hx
    obtain ⟨a, _, rfl⟩ := List.mem_map.mp hx
    exact mul_self_nonneg _
  · exact_mod_cast Nat.zero_le _

/-- The structural similarity of a frame with itself is one. -/
theorem ssimQ_self (i : Image) : ssimQ i i = 1 := by
  unfold ssimQ
  have hv := varQ_nonneg i.data
  have hc1 : (0 : ℚ) < ssim_c1 := by norm_num [ssim_c1]
  have hc2 : (0 : ℚ) < ssim_c2 := by norm_num [ssim_c2]
  have hm : (0 : ℚ) ≤ (meanQ i.data) ^ 2 := sq_nonneg _
  have hden : ((meanQ i.data) ^ 2 + (meanQ i.data) ^ 2 + ssim_c1) *
      (varQ i.data + varQ i.data + ssim_c2) ≠ 0 := by
    have f1 : (0 : ℚ) < (meanQ i.data) ^ 2 + (meanQ i.data) ^ 2 + ssim_c1 := by linarith
    have f2 : (0 : ℚ) < varQ i.data + varQ i.data + ssim_c2 := by linarith
    exact ne_of_gt (mul_pos f1 f2)
  rw [div_eq_one_iff_eq hden]
  unfold varQ
  ring

/-- Comparing a frame against itself yields distance zero and leaves the
diagnostics untouched. -/
theorem compare_identical (i : Image) (ma : Option MaxAverageFrame)
    (fn : Nat) (mv : ℝ) :
    compare_with_previous_image (some i) i ma fn mv = some (.ok 0, ma, mv) := by
  unfold compare_with_previous_image compare_images_histogram compare_images_ssim
  simp [hellingerDistance_self, ssimQ_self]

/-- With no previous frame the write decision is forced on. -/
theorem shouldWrite_none (avg : ℝ) : shouldWrite none avg = true := rfl

/-- With a previous frame present, the write decision is exactly the
threshold test. -/
theorem shouldWrite_some (p : Image) (avg : ℝ) :
    shouldWrite (some p) avg = decide (avg ≥ (0.006 : ℝ)) := by
  simp [shouldWrite]

/-- Distance zero is strictly below the threshold, so it never forces a
write on its own. -/
theorem shouldWrite_some_zero (p : Image) : shouldWrite (some p) 0 = false := by
  rw [shouldWrite_some]
  simp only [decide_eq_false_iff_not]
  norm_num

/-- Distance one, the value substituted for a failed comparison, always
forces a write. -/
theorem shouldWrite_some_one (p : Image) : shouldWrite (some p) 1 = true := by
  rw [shouldWrite_some]
  simp only [decide_eq_true_eq]
  norm_num

/-! ## Claim theorems -/

/-- Claim C3: for every frame write, a first success at or before the 3rd
attempt makes write_frame_with_retry return success after exactly that
many attempts, with one fixed 100 ms delay between consecutive attempts;
three failures make it return a fatal error after exactly 3 attempts,
never a 4th. -/
theorem claim_write_retry (attempt : Nat → Bool) :
    (∀ k, k < MAX_RETRIES → (∀ j, j < k → attempt j = false) →
      attempt k = true →
      write_frame_with_retry attempt =
        { result := .ok (), attempts := k + 1,
          delays := List.replicate k RETRY_DELAY_MS }) ∧
    ((∀ j, j < MAX_RETRIES → attempt j = false) →
      write_frame_with_retry attempt =
        { result := .error "Failed to write frame to ffmpeg: write error",
          attempts := MAX_RETRIES,
          delays := List.replicate (MAX_RETRIES - 1) RETRY_DELAY_MS }) :=
  ⟨fun k hk hfail hsucc => writeRetry_firstSuccess attempt k hk hfail hsucc,
   fun h => writeRetry_allFail attempt h⟩

/-- Witness for C3: success on the 3rd attempt after two failures, and a
write failing all 3 attempts. -/
theorem claim_write_retry_witness :
    write_frame_with_retry (fun j => decide (j = 2)) =
      { result := .ok (), attempts := 3,
        delays := List.replicate 2 RETRY_DELAY_MS } ∧
    write_frame_with_retry (fun _ => false) =
      { result := .error "Failed to write frame to ffmpeg: write error",
        attempts := MAX_RETRIES,
        delays := List.replicate (MAX_RETRIES - 1) RETRY_DELAY_MS } :=
  ⟨(claim_write_retry (fun j => decide (j = 2))).1 2 (by decide)
      (by decide) (by decide),
   (claim_write_retry (fun _ => false)).2 (fun _ _ => rfl)⟩

/-- Claim C4: the sleep logic advances the absolute deadline by one
interval; if now is before the new deadline it sleeps exactly until that
deadline, and if now is at or past it there is no sleep and the deadline
resets to now; in either case the following deadline lies strictly after
the instant at which this tick fired, so each overrun yields at most one
sleepless tick and no burst of catch-up ticks. -/
theorem claim_sched_step (next_tick now interval : ℚ) :
    (now < next_tick + interval →
      schedStep next_tick now interval =
        (some (next_tick + interval - now), next_tick + interval)) ∧
    (next_tick + interval ≤ now →
      schedStep next_tick now interval = (none, now)) ∧
    (0 < interval →
      now + ((schedStep next_tick now interval).1.getD 0) <
        (schedStep next_tick now interval).2 + interval) := by
  refine ⟨fun h => ?_, fun h => ?_, fun h => ?_⟩
  · simp [schedStep, h]
  · have hnot : ¬ now < next_tick + interval := not_lt.mpr h
    simp [schedStep, hnot]
  · by_cases hc : now < next_tick + interval
    · simp only [schedStep]
      rw [if_pos hc]
      simp
      linarith
    · simp only [schedStep]
      rw [if_neg hc]
      simp
      linarith

/-- Witness for C4: an on-time tick sleeps to the deadline, an overrun
tick does not sleep and resets the deadline, and the no-burst bound holds
there. -/
theorem claim_sched_step_witness :
    schedStep 0 0 1 = (some (0 + 1 - 0), 0 + 1) ∧
    schedStep 0 5 1 = (none, 5) ∧
    5 + ((schedStep 0 5 1).1.getD 0) < (schedStep 0 5 1).2 + 1 :=
  ⟨(claim_sched_step 0 0 1).1 (by norm_num),
   (claim_sched_step 0 5 1).2.1 (by norm_num),
   (claim_sched_step 0 5 1).2.2 (by norm_num)⟩

/-- Claim C6: is_blocked holds exactly when some blocklist app entry
occurs in the lowercased app name or some blocklist title entry occurs in
the lowercased title; with the default blocklists, Spotify is blocked and
a VSCode editor title is not. -/
theorem claim_is_blocked :
    (∀ (m : ActivityMonitor) (app title : String),
      m.is_blocked app title = true ↔
        ((∃ b ∈ m.blocked_apps, containsSub (toLowerStr app) b = true) ∨
         (∃ b ∈ m.blocked_titles, containsSub (toLowerStr title) b = true))) ∧
    ActivityMonitor.new.is_blocked "Spotify" "" = true ∧
    ActivityMonitor.new.is_blocked "VSCode" "main.rs — myproj" = false := by
  refine ⟨fun m app title => ?_, by decide, by decide⟩
  simp [ActivityMonitor.is_blocked, List.any_eq_true]

/-- Witness for C6: the two default-blocklist evaluations. -/
theorem claim_is_blocked_witness :
    ActivityMonitor.new.is_blocked "Spotify" "" = true ∧
    ActivityMonitor.new.is_blocked "VSCode" "main.rs — myproj" = false :=
  ⟨claim_is_blocked.2.1, claim_is_blocked.2.2⟩

/-- Claim C7: when the foreground query fails, check_activity permits
capture and leaves the monitor state, open segment included, exactly as
it was. -/
theorem claim_fail_open (m : ActivityMonitor) (now : ℚ) :
    m.check_activity now none = (true, m) := rfl

/-- Witness for C7: fail-open on the fresh monitor. -/
theorem claim_fail_open_witness :
    ActivityMonitor.new.check_activity 0 none = (true, ActivityMonitor.new) :=
  claim_fail_open ActivityMonitor.new 0

/-- One gate tick with a successful foreground query, keeping only the
monitor. -/
def gateTick (m : ActivityMonitor) (now : ℚ) (q : String × String) :
    ActivityMonitor :=
  (m.check_activity now (some q)).2

/-- Gate state after tick 1 of the C5 example. -/
def exM1 (t1 : ℚ) (a1 s1 : String) : ActivityMonitor :=
  { ActivityMonitor.new with current_log := some (newSeg t1 a1 s1 true) }

/-- Gate state after tick 2 of the C5 example. -/
def exM2 (t1 t2 : ℚ) (a1 s1 : String) : ActivityMonitor :=
  { ActivityMonitor.new with
      current_log := some (closeSeg (newSeg t1 a1 s1 true) t2) }

/-- Gate state after tick 3 of the C5 example. -/
def exM3 (t1 t2 t3 : ℚ) (a1 s1 a2 s2 : String) : ActivityMonitor :=
  { ActivityMonitor.new with
      current_log := some (newSeg t3 a2 s2 false),
      written := [closeSeg (closeSeg (newSeg t1 a1 s1 true) t2) t3] }

/-- Gate state after tick 4 of the C5 example. -/
def exM4 (t1 t2 t3 t4 : ℚ) (a1 s1 a2 s2 : String) : ActivityMonitor :=
  { ActivityMonitor.new with
      current_log := some (closeSeg (newSeg t3 a2 s2 false) t4),
      written := [closeSeg (closeSeg (newSeg t1 a1 s1 true) t2) t3] }

/-- Tick 1 of the example: first-ever tick opens a captured segment. -/
theorem gate_ex_1 (t1 : ℚ) (a1 s1 : String)
    (hb1 : ActivityMonitor.new.is_blocked a1 s1 = false) :
    gateTick ActivityMonitor.new t1 (a1, s1) = exM1 t1 a1 s1 := by
  unfold gateTick
  rw [check_activity_first ActivityMonitor.new t1 a1 s1 rfl, hb1]
  rfl

/-- Tick 2 of the example: unchanged, the end time extends in memory. -/
theorem gate_ex_2 (t1 t2 : ℚ) (a1 s1 : String)
    (hb1 : ActivityMonitor.new.is_blocked a1 s1 = false) :
    gateTick (exM1 t1 a1 s1) t2 (a1, s1) = exM2 t1 t2 a1 s1 := by
  unfold gateTick
  rw [check_activity_unchanged (exM1 t1 a1 s1) t2 a1 s1 (newSeg t1 a1 s1 true)
    rfl rfl rfl
    (by rw [show (exM1 t1 a1 s1).is_blocked a1 s1 = false from hb1]; rfl)]
  rfl

/-- Tick 3 of the example: the captured flag flips, so the open segment
closes at the current instant and a blocked segment opens. -/
theorem gate_ex_3 (t1 t2 t3 : ℚ) (a1 s1 a2 s2 : String)
    (hb2 : ActivityMonitor.new.is_blocked a2 s2 = true) :
    gateTick (exM2 t1 t2 a1 s1) t3 (a2, s2) = exM3 t1 t2 t3 a1 s1 a2 s2 := by
  unfold gateTick
  rw [check_activity_changed (exM2 t1 t2 a1 s1) t3 a2 s2
    (closeSeg (newSeg t1 a1 s1 true) t2) rfl
    (Or.inr (Or.inr (by
      rw [show (exM2 t1 t2 a1 s1).is_blocked a2 s2 = true from hb2]
      simp [closeSeg, newSeg])))]
  rw [show (exM2 t1 t2 a1 s1).is_blocked a2 s2 = true from hb2]
  rfl

/-- Tick 4 of the example: unchanged again, only the end time moves. -/
theorem gate_ex_4 (t1 t2 t3 t4 : ℚ) (a1 s1 a2 s2 : String)
    (hb2 : ActivityMonitor.new.is_blocked a2 s2 = true) :
    gateTick (exM3 t1 t2 t3 a1 s1 a2 s2) t4 (a2, s2) =
      exM4 t1 t2 t3 t4 a1 s1 a2 s2 := by
  unfold gateTick
  rw [check_activity_unchanged (exM3 t1 t2 t3 a1 s1 a2 s2) t4 a2 s2
    (newSeg t3 a2 s2 false) rfl rfl rfl
    (by rw [show (exM3 t1 t2 t3 a1 s1 a2 s2).is_blocked a2 s2 = true from hb2]
        rfl)]
  rfl

/-- Claim C5: the gate closes the open segment at the current instant and
opens a fresh one exactly when the (app, title, captured) triple changes
or on a first-ever tick, and only extends the end time in memory
otherwise; consequently the permitted-permitted-blocked-blocked example
followed by flush writes exactly two segments, the first covering ticks 1
and 2 (closed at the instant of tick 3) with is_captured true, the second
covering ticks 3 and 4 with is_captured false. -/
theorem claim_activity_segments (m : ActivityMonitor) (now : ℚ)
    (app title : String) :
    (m.current_log = none →
      m.check_activity now (some (app, title)) =
        (!(m.is_blocked app title),
         { m with current_log := some (newSeg now app title (!(m.is_blocked app title))) })) ∧
    (∀ cur, m.current_log = some cur →
      (cur.app_name ≠ app ∨ cur.window_title ≠ title ∨
        cur.is_captured ≠ !(m.is_blocked app title)) →
      m.check_activity now (some (app, title)) =
        (!(m.is_blocked app title),
         { m with
             current_log := some (newSeg now app title (!(m.is_blocked app title))),
             written := m.written ++ [closeSeg cur now] })) ∧
    (∀ cur, m.current_log = some cur →
      cur.app_name = app → cur.window_title = title →
      cur.is_captured = !(m.is_blocked app title) →
      m.check_activity now (some (app, title)) =
        (!(m.is_blocked app title),
         { m with current_log := some (closeSeg cur now) })) ∧
    (∀ (app1 title1 app2 title2 : String) (t1 t2 t3 t4 : ℚ),
      ActivityMonitor.new.is_blocked app1 title1 = false →
      ActivityMonitor.new.is_blocked app2 title2 = true →
      (ActivityMonitor.flush
        (gateTick (gateTick (gateTick (gateTick ActivityMonitor.new
          t1 (app1, title1)) t2 (app1, title1)) t3 (app2, title2))
          t4 (app2, title2))).written =
        [{ start_time := t1, end_time := t3, app_name := app1,
           window_title := title1, is_captured := true },
         { start_time := t3, end_time := t4, app_name := app2,
           window_title := title2, is_captured := false }]) := by
  refine ⟨check_activity_first m now app title,
    fun cur h hne => check_activity_changed m now app title cur h hne,
    fun cur h h1 h2 h3 => check_activity_unchanged m now app title cur h h1 h2 h3,
    fun app1 title1 app2 title2 t1 t2 t3 t4 hb1 hb2 => ?_⟩
  rw [gate_ex_1 t1 app1 title1 hb1, gate_ex_2 t1 t2 app1 title1 hb1,
    gate_ex_3 t1 t2 t3 app1 title1 app2 title2 hb2,
    gate_ex_4 t1 t2 t3 t4 app1 title1 app2 title2 hb2]
  simp [exM4, ActivityMonitor.flush, ActivityMonitor.new, closeSeg, newSeg]

/-- Witness for C5: the example instantiated with concrete apps, titles
and instants from the default blocklists. -/
theorem claim_activity_segments_witness :
    (ActivityMonitor.flush
      (gateTick (gateTick (gateTick (gateTick ActivityMonitor.new
        1 ("AppA", "TitleX")) 2 ("AppA", "TitleX")) 3 ("Discord", "TitleY"))
        4 ("Discord", "TitleY"))).written =
      [{ start_time := 1, end_time := 3, app_name := "AppA",
         window_title := "TitleX", is_captured := true },
       { start_time := 3, end_time := 4, app_name := "Discord",
         window_title := "TitleY", is_captured := false }] :=
  (claim_activity_segments ActivityMonitor.new 0 "" "").2.2.2
    "AppA" "TitleX" "Discord" "TitleY" 1 2 3 4 (by decide) (by decide)

/-! ## Recorder loop lemmas -/

/-- The loop with no environment left behaves like the stop signal:
cleanup runs and the result is ok. -/
theorem runTicks_nil (interval : ℚ) (s : RecSt) :
    runTicks interval [] s = some (cleanup s, .ok ()) := rfl

/-- A tick whose stop flag is set exits the loop at the top. -/
theorem runTicks_cons_stop (interval : ℚ) (t : TickInput)
    (rest : List TickInput) (s : RecSt) (hstop : t.stop = true) :
    runTicks interval (t :: rest) s = some (cleanup s, .ok ()) := by
  simp [runTicks, hstop]

/-- A tick whose body continues hands the scheduled state to the rest of
the loop. -/
theorem runTicks_cons_continue (interval : ℚ) (t : TickInput)
    (rest : List TickInput) (s s2 : RecSt) (hstop : t.stop = false)
    (hb : tickBody s t = some (.inl s2)) :
    runTicks interval (t :: rest) s =
      runTicks interval rest (applySched interval t.schedNow s2) := by
  simp [runTicks, hstop, hb]

/-- A tick whose body breaks goes straight to cleanup with an ok result,
ignoring the rest of the environment. -/
theorem runTicks_cons_break (interval : ℚ) (t : TickInput)
    (rest : List TickInput) (s s2 : RecSt) (hstop : t.stop = false)
    (hb : tickBody s t = some (.inr s2)) :
    runTicks interval (t :: rest) s = some (cleanup s2, .ok ()) := by
  simp [runTicks, hstop, hb]

/-- When the gate permits and a frame arrives, the tick body is the
capture branch on the gate-updated state. -/
theorem tickBody_capture (s : RecSt) (t : TickInput) (image : Image)
    (hallow : (s.monitor.check_activity t.actNow t.query).1 = true)
    (hcap : t.capture = some image) :
    tickBody s t = processCapturedFrame
      { s with monitor := (s.monitor.check_activity t.actNow t.query).2 }
      image t.writeOk := by
  simp [tickBody, hallow, hcap]

/-- The capture branch when the frame is forwarded and the write
succeeds. -/
theorem pcf_write_ok (s : RecSt) (image : Image) (wOk : Nat → Bool)
    (res : Except String ℝ) (ma : Option MaxAverageFrame) (mv : ℝ)
    (hcmp : compare_with_previous_image s.previousImage image s.maxAverage
      s.frameCounter s.maxAvgValue = some (res, ma, mv))
    (hsw : shouldWrite s.previousImage (unwrapOr1 res) = true)
    (hwr : (write_frame_with_retry wOk).result = .ok ()) :
    processCapturedFrame s image wOk =
      some (.inl { s with maxAverage := ma, maxAvgValue := mv,
                          previousImage := some image,
                          frameCounter := s.frameCounter + 1,
                          written := s.written ++ [image] }) := by
  simp only [processCapturedFrame, hcmp]
  simp only [hsw, if_true, hwr]

/-- The capture branch when the frame is forwarded and the write fails
fatally. -/
theorem pcf_write_fail (s : RecSt) (image : Image) (wOk : Nat → Bool)
    (res : Except String ℝ) (ma : Option MaxAverageFrame) (mv : ℝ) (e : String)
    (hcmp : compare_with_previous_image s.previousImage image s.maxAverage
      s.frameCounter s.maxAvgValue = some (res, ma, mv))
    (hsw : shouldWrite s.previousImage (unwrapOr1 res) = true)
    (hwr : (write_frame_with_retry wOk).result = .error e) :
    processCapturedFrame s image wOk =
      some (.inr { s with maxAverage := ma, maxAvgValue := mv,
                          errLog := s.errLog ++ ["Failed to write frame: " ++ e] }) := by
  simp only [processCapturedFrame, hcmp]
  simp only [hsw, if_true, hwr]

/-- The capture branch when the frame is dropped. -/
theorem pcf_drop (s : RecSt) (image : Image) (wOk : Nat → Bool)
    (res : Except String ℝ) (ma : Option MaxAverageFrame) (mv : ℝ)
    (hcmp : compare_with_previous_image s.previousImage image s.maxAverage
      s.frameCounter s.maxAvgValue = some (res, ma, mv))
    (hsw : shouldWrite s.previousImage (unwrapOr1 res) = false) :
    processCapturedFrame s image wOk =
      some (.inl { s with maxAverage := ma, maxAvgValue := mv,
                          frameCounter := s.frameCounter + 1 }) := by
  simp only [processCapturedFrame, hcmp]
  simp [hsw]

/-- The comparison function returns its two diagnostic arguments
unchanged whenever it returns at all. -/
theorem compare_preserves_diag (prev : Option Image) (cur : Image)
    (ma : Option MaxAverageFrame) (fn : Nat) (mv : ℝ)
    (res : Except String ℝ) (ma2 : Option MaxAverageFrame) (mv2 : ℝ)
    (h : compare_with_previous_image prev cur ma fn mv = some (res, ma2, mv2)) :
    ma2 = ma ∧ mv2 = mv := by
  cases prev with
  | none =>
    simp only [compare_with_previous_image, Option.some.injEq,
      Prod.mk.injEq] at h
    exact ⟨h.2.1.symm, h.2.2.symm⟩
  | some p =>
    simp only [compare_with_previous_image] at h
    cases hh : compare_images_histogram p cur with
    | error e =>
      rw [hh] at h
      simp only [Option.some.injEq, Prod.mk.injEq] at h
      exact ⟨h.2.1.symm, h.2.2.symm⟩
    | ok d =>
      rw [hh] at h
      cases hs : compare_images_ssim p cur with
      | none => rw [hs] at h; exact absurd h (by simp)
      | some v =>
        rw [hs] at h
        simp only [Option.some.injEq, Prod.mk.injEq] at h
        exact ⟨h.2.1.symm, h.2.2.symm⟩

/-- The capture branch never writes the diagnostic fields. -/
theorem pcf_preserves_diag (s : RecSt) (image : Image) (wOk : Nat → Bool)
    (out : RecSt ⊕ RecSt) (h : processCapturedFrame s image wOk = some out) :
    (Sum.elim (fun s2 => s2.maxAverage = s.maxAverage ∧ s2.maxAvgValue = s.maxAvgValue)
      (fun s2 => s2.maxAverage = s.maxAverage ∧ s2.maxAvgValue = s.maxAvgValue)) out := by
  unfold processCapturedFrame at h
  cases hcmp : compare_with_previous_image s.previousImage image s.maxAverage
      s.frameCounter s.maxAvgValue with
  | none => rw [hcmp] at h; exact absurd h (by simp)
  | some trip =>
    obtain ⟨res, ma2, mv2⟩ := trip
    obtain ⟨hma, hmv⟩ := compare_preserves_diag _ _ _ _ _ _ _ _ hcmp
    rw [hcmp] at h
    dsimp only at h
    by_cases hsw : shouldWrite s.previousImage (unwrapOr1 res) = true
    · rw [hsw] at h
      cases hwr : (write_frame_with_retry wOk).result with
      | error e =>
        rw [hwr] at h
        simp only [if_true, Option.some.injEq] at h
        subst h
        simp [hma, hmv]
      | ok u =>
        rw [hwr] at h
        simp only [if_true, Option.some.injEq] at h
        subst h
        simp [hma, hmv]
    · rw [Bool.not_eq_true] at hsw
      rw [hsw] at h
      simp only [Bool.false_eq_true, if_false, Option.some.injEq] at h
      subst h
      simp [hma, hmv]

/-- One whole tick never writes the diagnostic fields. -/
theorem tickBody_preserves_diag (s : RecSt) (t : TickInput)
    (out : RecSt ⊕ RecSt) (h : tickBody s t = some out) :
    (Sum.elim (fun s2 => s2.maxAverage = s.maxAverage ∧ s2.maxAvgValue = s.maxAvgValue)
      (fun s2 => s2.maxAverage = s.maxAverage ∧ s2.maxAvgValue = s.maxAvgValue)) out := by
  unfold tickBody at h
  dsimp only at h
  by_cases hq : (s.monitor.check_activity t.actNow t.query).1 = true
  · rw [hq] at h
    cases hc : t.capture with
    | some image =>
      rw [hc] at h
      simp only [if_true] at h
      have hp := pcf_preserves_diag _ image t.writeOk out h
      exact hp
    | none =>
      rw [hc] at h
      simp only [if_true, Option.some.injEq] at h
      subst h
      simp
  · rw [Bool.not_eq_true] at hq
    rw [hq] at h
    simp only [Bool.false_eq_true, if_false, Option.some.injEq] at h
    subst h
    simp

/-- The loop as a whole never writes the diagnostic fields. -/
theorem runTicks_preserves_diag (interval : ℚ) (ticks : List TickInput) :
    ∀ (s s2 : RecSt) (r : Except String Unit),
      runTicks interval ticks s = some (s2, r) →
      s2.maxAverage = s.maxAverage ∧ s2.maxAvgValue = s.maxAvgValue := by
  induction ticks with
  | nil =>
    intro s s2 r h
    rw [runTicks_nil] at h
    simp only [Option.some.injEq, Prod.mk.injEq] at h
    rw [← h.1]
    exact ⟨rfl, rfl⟩
  | cons t rest ih =>
    intro s s2 r h
    by_cases hstop : t.stop = true
    · rw [runTicks_cons_stop interval t rest s hstop] at h
      simp only [Option.some.injEq, Prod.mk.injEq] at h
      rw [← h.1]
      exact ⟨rfl, rfl⟩
    · rw [Bool.not_eq_true] at hstop
      cases hb : tickBody s t with
      | none =>
        rw [show runTicks interval (t :: rest) s = none by
          simp [runTicks, hstop, hb]] at h
        exact absurd h (by simp)
      | some out =>
        cases out with
        | inl sc =>
          rw [runTicks_cons_continue interval t rest s sc hstop hb] at h
          have hd := tickBody_preserves_diag s t _ hb
          simp only [Sum.elim_inl] at hd
          have hrec := ih (applySched interval t.schedNow sc) s2 r h
          refine ⟨?_, ?_⟩
          · rw [hrec.1]; exact hd.1
          · rw [hrec.2]; exact hd.2
        | inr sc =>
          rw [runTicks_cons_break interval t rest s sc hstop hb] at h
          simp only [Option.some.injEq, Prod.mk.injEq] at h
          have hd := tickBody_preserves_diag s t _ hb
          simp only [Sum.elim_inr] at hd
          rw [← h.1]
          exact hd

/-- Claim C9: compare_with_previous_image never writes the diagnostic
running-maximum state, and over a whole session starting from the fresh
loop state those diagnostics keep their initial values none and zero. -/
theorem claim_diag_never_written (prev : Option Image) (cur : Image)
    (ma : Option MaxAverageFrame) (fn : Nat) (mv : ℝ) :
    (∀ (res : Except String ℝ) (ma2 : Option MaxAverageFrame) (mv2 : ℝ),
      compare_with_previous_image prev cur ma fn mv = some (res, ma2, mv2) →
      ma2 = ma ∧ mv2 = mv) ∧
    (∀ (interval t0 : ℚ) (ticks : List TickInput) (s2 : RecSt)
        (r : Except String Unit),
      runTicks interval ticks (initState t0) = some (s2, r) →
      s2.maxAverage = none ∧ s2.maxAvgValue = 0) := by
  refine ⟨fun res ma2 mv2 h => compare_preserves_diag prev cur ma fn mv res ma2 mv2 h,
    fun interval t0 ticks s2 r h => ?_⟩
  have hp := runTicks_preserves_diag interval ticks (initState t0) s2 r h
  exact hp

/-- Witness for C9: a first-frame comparison and an empty session. -/
theorem claim_diag_never_written_witness :
    ((Except.ok (0 : ℝ) : Except String ℝ) = Except.ok 0 ∧
      (none : Option MaxAverageFrame) = none ∧ (0 : ℝ) = 0) ∧
    ((cleanup (initState 0)).maxAverage = none ∧
      (cleanup (initState 0)).maxAvgValue = 0) := by
  have h1 := (claim_diag_never_written none { width := 1, height := 1, data := [0] }
    none 0 0).1 (.ok 0) none 0 rfl
  have h2 := (claim_diag_never_written none { width := 1, height := 1, data := [0] }
    none 0 0).2 1 0 [] (cleanup (initState 0)) (.ok ()) rfl
  exact ⟨⟨rfl, h1⟩, h2⟩

/-- Claim C10: with no previous frame the comparison returns ok zero,
which is below the forward threshold; forwarding of the first kept frame
comes only from the is_none disjunct of the write decision, since a zero
distance with a previous frame present would not force a write. -/
theorem claim_first_frame_source (cur : Image) (ma : Option MaxAverageFrame)
    (fn : Nat) (mv : ℝ) :
    compare_with_previous_image none cur ma fn mv = some (.ok 0, ma, mv) ∧
    (0 : ℝ) < 0.006 ∧
    (∀ avg : ℝ, shouldWrite none avg = true) ∧
    (∀ p : Image, shouldWrite (some p) 0 = false) :=
  ⟨rfl, by norm_num, fun _ => rfl, fun p => shouldWrite_some_zero p⟩

/-- Witness for C10: the comparison and decision at a concrete frame. -/
theorem claim_first_frame_source_witness :
    compare_with_previous_image none { width := 1, height := 1, data := [0] }
      none 0 0 = some (.ok 0, none, 0) ∧
    (0 : ℝ) < 0.006 ∧
    shouldWrite none 1 = true ∧
    shouldWrite (some { width := 1, height := 1, data := [0] }) 0 = false := by
  obtain ⟨h1, h2, h3, h4⟩ := claim_first_frame_source
    { width := 1, height := 1, data := [0] } none 0 0
  exact ⟨h1, h2, h3 1, h4 _⟩

/-- Claim C2: a dimension mismatch makes the frame comparison return an
error value rather than aborting, and the caller substitutes distance one
for the error, which is at or above the threshold, so the frame is
forwarded to the encoder rather than silently dropped. -/
theorem claim_dim_mismatch (i1 i2 : Image) (ma : Option MaxAverageFrame)
    (fn : Nat) (mv : ℝ) (s : RecSt) (wOk : Nat → Bool)
    (hdim : ¬(i1.width = i2.width ∧ i1.height = i2.height))
    (hprev : s.previousImage = some i1)
    (hma : s.maxAverage = ma) (hmv : s.maxAvgValue = mv)
    (hwr : (write_frame_with_retry wOk).result = .ok ()) :
    compare_with_previous_image (some i1) i2 ma fn mv =
      some (.error "Failed to compare images: dimensions differ", ma, mv) ∧
    unwrapOr1 (.error "Failed to compare images: dimensions differ") = 1 ∧
    processCapturedFrame s i2 wOk =
      some (.inl { s with maxAverage := ma, maxAvgValue := mv,
                          previousImage := some i2,
                          frameCounter := s.frameCounter + 1,
                          written := s.written ++ [i2] }) := by
  have hcmp : compare_with_previous_image (some i1) i2 ma fn mv =
      some (.error "Failed to compare images: dimensions differ", ma, mv) := by
    simp only [compare_with_previous_image, compare_images_histogram]
    rw [if_neg hdim]
  refine ⟨hcmp, rfl, ?_⟩
  have hcmp2 : compare_with_previous_image s.previousImage i2 s.maxAverage
      s.frameCounter s.maxAvgValue =
      some (.error "Failed to compare images: dimensions differ", ma, mv) := by
    rw [hprev, hma, hmv]
    simp only [compare_with_previous_image, compare_images_histogram]
    rw [if_neg hdim]
  have hsw : shouldWrite s.previousImage
      (unwrapOr1 (.error "Failed to compare images: dimensions differ")) = true := by
    rw [hprev]
    exact shouldWrite_some_one i1
  have := pcf_write_ok s i2 wOk
    (.error "Failed to compare images: dimensions differ") ma mv hcmp2 hsw hwr
  exact this

/-- Witness for C2: a 1 by 1 frame against a 2 by 1 frame. -/
theorem claim_dim_mismatch_witness :
    compare_with_previous_image (some { width := 1, height := 1, data := [0] })
      { width := 2, height := 1, data := [0, 0] } none 0 0 =
      some (.error "Failed to compare images: dimensions differ", none, 0) ∧
    unwrapOr1 (.error "Failed to compare images: dimensions differ") = 1 ∧
    processCapturedFrame
      { initState 0 with previousImage := some { width := 1, height := 1, data := [0] } }
      { width := 2, height := 1, data := [0, 0] } (fun _ => true) =
      some (.inl { ({ initState 0 with previousImage := some { width := 1, height := 1, data := [0] } } : RecSt) with
                     maxAverage := none, maxAvgValue := 0,
                     previousImage := some { width := 2, height := 1, data := [0, 0] },
                     frameCounter := ({ initState 0 with previousImage := some { width := 1, height := 1, data := [0] } } : RecSt).frameCounter + 1,
                     written := ({ initState 0 with previousImage := some { width := 1, height := 1, data := [0] } } : RecSt).written ++ [{ width := 2, height := 1, data := [0, 0] }] }) :=
  claim_dim_mismatch { width := 1, height := 1, data := [0] }
    { width := 2, height := 1, data := [0, 0] } none 0 0
    { initState 0 with previousImage := some { width := 1, height := 1, data := [0] } }
    (fun _ => true) (by decide) rfl rfl rfl rfl

/-- A 1 by 1 all-black frame used by concrete traces. -/
def img0 : Image := { width := 1, height := 1, data := [0] }

/-- A concrete tick environment whose encoder write fails on every
attempt: no stop signal, an unblocked foreground window, a good capture,
an always-failing pipe. -/
def cTick : TickInput :=
  { stop := false, actNow := 1, query := some ("AppA", "TitleX"),
    capture := some img0, writeOk := fun _ => false, schedNow := 1 }

/-- Counterexample to claim C1 as stated: on a trace whose first tick
exhausts all write retries, the fatal write failure is logged and the
frame is not written, yet Recorder::run returns ok to its caller instead
of reporting an error. -/
theorem claim_fatal_write_counterexample :
    (runTicks 1 [cTick] (initState 0)).map Prod.snd = some (.ok ()) ∧
    (runTicks 1 [cTick] (initState 0)).map (fun p => p.1.errLog) =
      some ["Failed to write frame: Failed to write frame to ffmpeg: write error"] ∧
    (runTicks 1 [cTick] (initState 0)).map (fun p => p.1.written) = some [] ∧
    (runTicks 1 [cTick] (initState 0)).map (fun p => p.1.flushed) = some true :=
  ⟨rfl, rfl, rfl, rfl⟩

/-- Claim C1 as amended: when a tick exhausts all encoder-write retries,
the loop breaks immediately, the remaining environment is never
consumed (no further frames are attempted), the activity log is flushed,
the encoder input is closed and the subprocess awaited, the failed
frame is not recorded as written, the fatal failure is logged - and the
run returns ok to its caller, not an error. -/
theorem claim_fatal_write (interval : ℚ) (t : TickInput)
    (rest : List TickInput) (s : RecSt) (img : Image)
    (res : Except String ℝ) (ma : Option MaxAverageFrame) (mv : ℝ)
    (hstop : t.stop = false)
    (hcap : t.capture = some img)
    (hallow : (s.monitor.check_activity t.actNow t.query).1 = true)
    (hfail : ∀ j, j < MAX_RETRIES → t.writeOk j = false)
    (hcmp : compare_with_previous_image s.previousImage img s.maxAverage
      s.frameCounter s.maxAvgValue = some (res, ma, mv))
    (hsw : shouldWrite s.previousImage (unwrapOr1 res) = true) :
    runTicks interval (t :: rest) s = runTicks interval [t] s ∧
    ∃ s2, runTicks interval (t :: rest) s = some (s2, .ok ()) ∧
      s2.flushed = true ∧ s2.stdinClosed = true ∧ s2.waited = true ∧
      s2.written = s.written ∧
      s2.errLog = s.errLog ++
        ["Failed to write frame: Failed to write frame to ffmpeg: write error"] := by
  have hwr : (write_frame_with_retry t.writeOk).result =
      .error "Failed to write frame to ffmpeg: write error" := by
    rw [writeRetry_allFail t.writeOk hfail]
  set s1 : RecSt :=
    { s with monitor := (s.monitor.check_activity t.actNow t.query).2 } with hs1
  have hcmp1 : compare_with_previous_image s1.previousImage img s1.maxAverage
      s1.frameCounter s1.maxAvgValue = some (res, ma, mv) := hcmp
  have hsw1 : shouldWrite s1.previousImage (unwrapOr1 res) = true := hsw
  have hpcf := pcf_write_fail s1 img t.writeOk res ma mv
    "Failed to write frame to ffmpeg: write error" hcmp1 hsw1 hwr
  have hbody : tickBody s t = some (.inr
      { s1 with maxAverage := ma, maxAvgValue := mv,
                errLog := s1.errLog ++
                  ["Failed to write frame: Failed to write frame to ffmpeg: write error"] }) := by
    rw [tickBody_capture s t img hallow hcap]
    exact hpcf
  have hrun : runTicks interval (t :: rest) s = some (cleanup
      { s1 with maxAverage := ma, maxAvgValue := mv,
                errLog := s1.errLog ++
                  ["Failed to write frame: Failed to write frame to ffmpeg: write error"] },
      .ok ()) :=
    runTicks_cons_break interval t rest s _ hstop hbody
  have hrun1 : runTicks interval [t] s = some (cleanup
      { s1 with maxAverage := ma, maxAvgValue := mv,
                errLog := s1.errLog ++
                  ["Failed to write frame: Failed to write frame to ffmpeg: write error"] },
      .ok ()) :=
    runTicks_cons_break interval t [] s _ hstop hbody
  refine ⟨hrun.trans hrun1.symm, ⟨_, hrun, rfl, rfl, rfl, rfl, rfl⟩⟩

/-- Witness for the amended C1: the concrete always-failing trace with a
second tick that is provably never consumed. -/
theorem claim_fatal_write_witness :
    (runTicks 1 [cTick, cTick] (initState 0) = runTicks 1 [cTick] (initState 0) ∧
     ∃ s2, runTicks 1 [cTick, cTick] (initState 0) = some (s2, .ok ()) ∧
       s2.flushed = true ∧ s2.stdinClosed = true ∧ s2.waited = true ∧
       s2.written = (initState 0).written ∧
       s2.errLog = (initState 0).errLog ++
         ["Failed to write frame: Failed to write frame to ffmpeg: write error"]) :=
  claim_fatal_write 1 cTick [cTick] (initState 0) img0 (.ok 0) none 0
    rfl rfl (by decide) (fun _ _ => rfl) rfl rfl

/-- A tick environment of the identical-frame scenario: no stop, a fixed
foreground window, the same captured frame every tick. -/
def mkIdentTick (img : Image) (app title : String) (tn sn : ℚ)
    (wOk : Nat → Bool) : TickInput :=
  { stop := false, actNow := tn, query := some (app, title),
    capture := some img, writeOk := wOk, schedNow := sn }

/-- Loop invariant of the identical-frame run: the previous kept frame is
the repeated frame, the gate has an open captured segment for the fixed
window, and the blocklists are the defaults. -/
def identInv (img : Image) (app title : String) (s : RecSt) : Prop :=
  s.previousImage = some img ∧
  (∃ cur, s.monitor.current_log = some cur ∧ cur.app_name = app ∧
    cur.window_title = title ∧ cur.is_captured = true) ∧
  s.monitor.blocked_apps = ActivityMonitor.new.blocked_apps ∧
  s.monitor.blocked_titles = ActivityMonitor.new.blocked_titles

/-- is_blocked only reads the blocklists. -/
theorem is_blocked_congr (m m' : ActivityMonitor) (app title : String)
    (h1 : m.blocked_apps = m'.blocked_apps)
    (h2 : m.blocked_titles = m'.blocked_titles) :
    m.is_blocked app title = m'.is_blocked app title := by
  simp [ActivityMonitor.is_blocked, h1, h2]

/-- One tick of the identical-frame run preserves the invariant and
forwards nothing. -/
theorem ident_step (img : Image) (app title : String) (t : TickInput)
    (s : RecSt)
    (hb : ActivityMonitor.new.is_blocked app title = false)
    (hstop : t.stop = false) (hq : t.query = some (app, title))
    (hcap : t.capture = some img)
    (hinv : identInv img app title s) :
    ∃ s2, tickBody s t = some (.inl s2) ∧ identInv img app title s2 ∧
      s2.written = s.written := by
  obtain ⟨hprev, ⟨cur, hcl, hca, hct, hcc⟩, hba, hbt⟩ := hinv
  have hbm : s.monitor.is_blocked app title = false := by
    rw [is_blocked_congr s.monitor ActivityMonitor.new app title hba hbt]
    exact hb
  have hgate := check_activity_unchanged s.monitor t.actNow app title cur hcl
    hca hct (by rw [hbm, hcc]; rfl)
  have hallow : (s.monitor.check_activity t.actNow t.query).1 = true := by
    rw [hq, hgate]
    simp [hbm]
  set s1 : RecSt :=
    { s with monitor := (s.monitor.check_activity t.actNow t.query).2 } with hs1
  have hcmp : compare_with_previous_image s1.previousImage img s1.maxAverage
      s1.frameCounter s1.maxAvgValue =
      some (.ok 0, s1.maxAverage, s1.maxAvgValue) := by
    rw [show s1.previousImage = some img from hprev]
    exact compare_identical img _ _ _
  have hsw : shouldWrite s1.previousImage (unwrapOr1 (.ok 0)) = false := by
    rw [show s1.previousImage = some img from hprev]
    exact shouldWrite_some_zero img
  have hpcf := pcf_drop s1 img t.writeOk (.ok 0) s1.maxAverage s1.maxAvgValue
    hcmp hsw
  refine ⟨{ s1 with maxAverage := s1.maxAverage, maxAvgValue := s1.maxAvgValue,
                    frameCounter := s1.frameCounter + 1 },
    ?_, ?_, ?_⟩
  · rw [tickBody_capture s t img hallow hcap]
    exact hpcf
  · refine ⟨hprev, ⟨closeSeg cur t.actNow, ?_, ?_, ?_, ?_⟩, ?_, ?_⟩
    · show ((s.monitor.check_activity t.actNow t.query).2).current_log =
        some (closeSeg cur t.actNow)
      rw [hq, hgate]
    · simp [closeSeg, hca]
    · simp [closeSeg, hct]
    · simp [closeSeg, hcc]
    · show ((s.monitor.check_activity t.actNow t.query).2).blocked_apps =
        ActivityMonitor.new.blocked_apps
      rw [hq, hgate]
      exact hba
    · show ((s.monitor.check_activity t.actNow t.query).2).blocked_titles =
        ActivityMonitor.new.blocked_titles
      rw [hq, hgate]
      exact hbt
  · rfl

/-- Any number of further identical ticks forwards nothing. -/
theorem ident_run (img : Image) (app title : String) (interval : ℚ)
    (hb : ActivityMonitor.new.is_blocked app title = false)
    (ticks : List TickInput)
    (hall : ∀ t ∈ ticks, t.stop = false ∧ t.query = some (app, title) ∧
      t.capture = some img) :
    ∀ s, identInv img app title s →
      ∃ s2, runTicks interval ticks s = some (s2, .ok ()) ∧
        s2.written = s.written := by
  induction ticks with
  | nil => exact fun s _ => ⟨cleanup s, rfl, rfl⟩
  | cons t rest ih =>
    intro s hinv
    obtain ⟨hstop, hq, hcap⟩ := hall t (List.mem_cons_self t rest)
    obtain ⟨s2, hbody, hinv2, hw⟩ :=
      ident_step img app title t s hb hstop hq hcap hinv
    rw [runTicks_cons_continue interval t rest s s2 hstop hbody]
    have hinv3 : identInv img app title (applySched interval t.schedNow s2) := by
      obtain ⟨h1, h2, h3, h4⟩ := hinv2
      exact ⟨h1, h2, h3, h4⟩
    obtain ⟨s3, hrun, hw3⟩ :=
      ih (fun u hu => hall u (List.mem_cons_of_mem t hu)) _ hinv3
    refine ⟨s3, hrun, ?_⟩
    rw [hw3]
    exact hw

/-- The first tick of the identical-frame run from the fresh state
forwards exactly the first frame and establishes the invariant. -/
theorem ident_first (img : Image) (app title : String) (t : TickInput)
    (t0 : ℚ)
    (hb : ActivityMonitor.new.is_blocked app title = false)
    (hq : t.query = some (app, title)) (hcap : t.capture = some img)
    (hwOk : t.writeOk 0 = true) :
    ∃ s2, tickBody (initState t0) t = some (.inl s2) ∧
      identInv img app title s2 ∧ s2.written = [img] := by
  have hgate := check_activity_first ActivityMonitor.new t.actNow app title rfl
  have hallow : ((initState t0).monitor.check_activity t.actNow t.query).1 = true := by
    show (ActivityMonitor.new.check_activity t.actNow t.query).1 = true
    rw [hq, hgate]
    simp [hb]
  set s1 : RecSt :=
    { initState t0 with
        monitor := ((initState t0).monitor.check_activity t.actNow t.query).2 }
    with hs1
  have hm : s1.monitor =
      { ActivityMonitor.new with
          current_log := some (newSeg t.actNow app title true) } := by
    show (ActivityMonitor.new.check_activity t.actNow t.query).2 = _
    rw [hq, hgate, hb]
    rfl
  have hcmp : compare_with_previous_image s1.previousImage img s1.maxAverage
      s1.frameCounter s1.maxAvgValue =
      some (.ok 0, s1.maxAverage, s1.maxAvgValue) := rfl
  have hsw : shouldWrite s1.previousImage (unwrapOr1 (.ok 0)) = true := rfl
  have hwr : (write_frame_with_retry t.writeOk).result = .ok () := by
    rw [writeRetry_firstSuccess t.writeOk 0 (by decide)
      (fun j hj => absurd hj (Nat.not_lt_zero j)) hwOk]
  have hpcf := pcf_write_ok s1 img t.writeOk (.ok 0) s1.maxAverage
    s1.maxAvgValue hcmp hsw hwr
  refine ⟨{ s1 with maxAverage := s1.maxAverage, maxAvgValue := s1.maxAvgValue,
                    previousImage := some img,
                    frameCounter := s1.frameCounter + 1,
                    written := s1.written ++ [img] },
    ?_, ?_, ?_⟩
  · rw [tickBody_capture (initState t0) t img hallow hcap]
    exact hpcf
  · refine ⟨rfl, ⟨newSeg t.actNow app title true, ?_, rfl, rfl, rfl⟩, ?_, ?_⟩
    · show s1.monitor.current_log = some (newSeg t.actNow app title true)
      rw [hm]
    · show s1.monitor.blocked_apps = ActivityMonitor.new.blocked_apps
      rw [hm]
    · show s1.monitor.blocked_titles = ActivityMonitor.new.blocked_titles
      rw [hm]
  · rfl

/-- Claim C8: in a run of identical consecutive captured frames only the
first is forwarded to the encoder and all subsequent identical frames are
dropped, because the distance of a frame to itself (the average of the
Hellinger histogram divergence and one minus the structural similarity)
is zero, below the 0.006 threshold. -/
theorem claim_identical_frames (img : Image) (app title : String)
    (tn sn t0 interval : ℚ) (wOk : Nat → Bool) (n : Nat)
    (hb : ActivityMonitor.new.is_blocked app title = false)
    (hwOk : wOk 0 = true) (hn : 1 ≤ n) :
    (∃ s2, runTicks interval
        (List.replicate n (mkIdentTick img app title tn sn wOk))
        (initState t0) = some (s2, .ok ()) ∧ s2.written = [img]) ∧
    (∀ (ma : Option MaxAverageFrame) (fn : Nat) (mv : ℝ),
      compare_with_previous_image (some img) img ma fn mv =
        some (.ok 0, ma, mv)) ∧
    (∀ p : Image, shouldWrite (some p) 0 = false) := by
  refine ⟨?_, fun ma fn mv => compare_identical img ma fn mv,
    fun p => shouldWrite_some_zero p⟩
  obtain ⟨m, rfl⟩ : ∃ m, n = m + 1 := ⟨n - 1, by omega⟩
  rw [List.replicate_succ]
  obtain ⟨s2, hbody, hinv, hw⟩ :=
    ident_first img app title (mkIdentTick img app title tn sn wOk) t0 hb
      rfl rfl hwOk
  rw [runTicks_cons_continue interval _ _ _ s2 rfl hbody]
  have hinv3 : identInv img app title
      (applySched interval (mkIdentTick img app title tn sn wOk).schedNow s2) := by
    obtain ⟨h1, h2, h3, h4⟩ := hinv
    exact ⟨h1, h2, h3, h4⟩
  obtain ⟨s3, hrun, hw3⟩ := ident_run img app title interval hb
    (List.replicate m (mkIdentTick img app title tn sn wOk))
    (fun u hu => by
      rw [List.eq_of_mem_replicate hu]
      exact ⟨rfl, rfl, rfl⟩) _ hinv3
  refine ⟨s3, hrun, ?_⟩
  rw [hw3]
  exact hw

/-- Witness for C8: two ticks of the same 1 by 1 frame forward exactly
one frame. -/
theorem claim_identical_frames_witness :
    (∃ s2, runTicks 1
        (List.replicate 2 (mkIdentTick img0 "AppA" "TitleX" 1 1 (fun _ => true)))
        (initState 0) = some (s2, .ok ()) ∧ s2.written = [img0]) ∧
    (∀ (ma : Option MaxAverageFrame) (fn : Nat) (mv : ℝ),
      compare_with_previous_image (some img0) img0 ma fn mv =
        some (.ok 0, ma, mv)) ∧
    (∀ p : Image, shouldWrite (some p) 0 = false) :=
  claim_identical_frames img0 "AppA" "TitleX" 1 1 0 1 (fun _ => true) 2
    (by decide) rfl (by decide)
